import Mathlib

/-!
Verification development for the rule-based security-analysis engine of the
`ai-userstory` backend.  The definitions below are shallow embeddings of
`backend/services/template_analyzer.py`, `backend/services/compliance_mapper.py`
and the version-assignment logic of `backend/routers/analysis.py`.
Python strings become Lean `String`s, Python lists become Lean `List`s,
Python dict lookups with defaults become association-list lookups with a
default, and the float relevance scores become exact rationals.
-/

/-! ### String helpers (Python `in` and `str.lower`) -/

/-- `charsContain h n` models Python's substring test `n in h` on the
underlying character lists: `true` iff `n` occurs contiguously in `h`
(the empty needle occurs in every string). -/
def charsContain (h n : List Char) : Bool :=
  match h with
  | [] => n.isEmpty
  | c :: t => n.isPrefixOf (c :: t) || charsContain t n

/-- Python `needle in haystack` (substring containment). -/
def strContains (haystack needle : String) : Bool :=
  charsContain haystack.data needle.data

/-- Python `s.startswith(pre)`. -/
def strStartsWith (s pre : String) : Bool :=
  pre.data.isPrefixOf s.data

/-- Python `str.lower()`, character by character.  All keyword matching in the
source uses ASCII text, where `Char.toLower` agrees with Python. -/
def strLower (s : String) : String :=
  String.mk (s.data.map Char.toLower)

/-- Python `f"{n:03d}"`: decimal digits of `n`, left-padded with zeros to at
least three characters. -/
def pad3 (n : Nat) : String :=
  let s := toString n
  if s.length ≥ 3 then s else String.mk (List.replicate (3 - s.length) '0') ++ s

/-- `template_analyzer._id`: `f"{prefix}-{n:03d}"`. -/
def mkId (pfx : String) (n : Nat) : String :=
  pfx ++ "-" ++ pad3 n

/-! ### Data model of the template analyzer -/

/-- An abuse-case template of the pattern library (a dict in the source,
before any `id` key is assigned). -/
structure AbuseCaseT where
  threat : String
  actor : String
  description : String
  impact : String
  likelihood : String
  attack_vector : String
  stride_category : String
deriving Repr, DecidableEq

/-- A requirement template (a dict in the source, before `id` assignment). -/
structure ReqT where
  text : String
  priority : String
  category : String
  details : String
deriving Repr, DecidableEq

/-- One entry of the `PATTERNS` dict: the key (pattern name), the trigger
keywords, and the associated abuse cases and requirements. -/
structure Pattern where
  name : String
  keywords : List String
  abuse_cases : List AbuseCaseT
  requirements : List ReqT
deriving Repr, DecidableEq

/-- An emitted abuse case: the template plus the run-scoped `id`. -/
structure AbuseCase extends AbuseCaseT where
  id : String
deriving Repr, DecidableEq

/-- An emitted security requirement: the template plus the run-scoped `id`. -/
structure SecurityRequirement extends ReqT where
  id : String
deriving Repr, DecidableEq

/-- One entry of the `stride_threats` output list. -/
structure StrideThreat where
  category : String
  threat : String
  description : String
  risk_level : String
deriving Repr, DecidableEq

/-- The dict returned by `analyze_with_templates`. -/
structure AnalysisResult where
  abuse_cases : List AbuseCase
  stride_threats : List StrideThreat
  security_requirements : List SecurityRequirement
  risk_score : Nat
deriving Repr, DecidableEq
def PATTERNS : List Pattern := [
  { name := "authentication",
    keywords := ["password", "login", "register", "authentication", "sign in", "sign up", "reset", "credentials"],
    abuse_cases := [
    { threat := "Credential Stuffing Attack", actor := "External Attacker", description := "Automated attack using breached username/password combinations.", impact := "Critical", likelihood := "High", attack_vector := "Automated login attempts, botnet", stride_category := "Spoofing" },
    { threat := "Brute Force Password Attack", actor := "External Attacker", description := "Systematic attempt to guess passwords through automated tools.", impact := "High", likelihood := "High", attack_vector := "Password cracking tools, dictionary attacks", stride_category := "Spoofing" },
    { threat := "Session Hijacking", actor := "External Attacker", description := "Attacker steals or predicts session tokens to impersonate authenticated users.", impact := "Critical", likelihood := "Medium", attack_vector := "XSS, network sniffing, session fixation", stride_category := "Spoofing" },
    { threat := "Password Reset Token Exploitation", actor := "External Attacker", description := "Exploiting weak password reset mechanism via predictable tokens or timing attacks.", impact := "Critical", likelihood := "Medium", attack_vector := "Token prediction, email interception", stride_category := "Spoofing" },
    { threat := "Account Enumeration", actor := "External Attacker", description := "Determining valid usernames through error response differences.", impact := "Medium", likelihood := "High", attack_vector := "Response analysis, timing attacks", stride_category := "Information Disclosure" }
    ],
    requirements := [
    { text := "Implement adaptive MFA for all users", priority := "Critical", category := "Authentication & Access Control", details := "Require MFA for login, sensitive operations, and new device registration." },
    { text := "Hash passwords using Argon2id with memory cost >=64MB", priority := "Critical", category := "Authentication & Access Control", details := "Never use MD5, SHA1, or plain SHA256 for passwords." },
    { text := "Enforce password policy: 12+ chars, breach database check", priority := "High", category := "Authentication & Access Control", details := "Check against HaveIBeenPwned API. Block common passwords." },
    { text := "Implement progressive account lockout", priority := "High", category := "Authentication & Access Control", details := "5 failures = 15min, 10 = 1hr, 15 = 24hr lockout." },
    { text := "Generate cryptographically secure password reset tokens (256-bit)", priority := "High", category := "Authentication & Access Control", details := "Tokens expire in 15 minutes. Single-use only." }
    ] },
  { name := "pii_ssn",
    keywords := ["ssn", "social security", "pii", "personal information", "date of birth", "dob"],
    abuse_cases := [
    { threat := "SSN Harvesting Attack", actor := "External Attacker", description := "Exploiting vulnerabilities to harvest SSNs for identity theft.", impact := "Critical", likelihood := "High", attack_vector := "API exploitation, SQL injection, insider threat", stride_category := "Information Disclosure" },
    { threat := "SSN Enumeration via Error Messages", actor := "External Attacker", description := "Using error messages to determine valid SSN formats.", impact := "High", likelihood := "Medium", attack_vector := "Input fuzzing, error analysis", stride_category := "Information Disclosure" },
    { threat := "Identity Theft via SSN Exposure in Logs", actor := "Malicious Insider", description := "SSN data logged in plain text accessed by unauthorized personnel.", impact := "Critical", likelihood := "Medium", attack_vector := "Log file access, SIEM exploitation", stride_category := "Information Disclosure" }
    ],
    requirements := [
    { text := "Encrypt all PII at rest using AES-256-GCM", priority := "Critical", category := "Data Protection", details := "Use HSM for key management. Implement envelope encryption." },
    { text := "Implement field-level encryption for SSN and DOB", priority := "Critical", category := "Data Protection", details := "Separate key per data classification. Key rotation every 90 days." },
    { text := "Apply data masking for all non-production environments", priority := "High", category := "Data Protection", details := "Show last 4 digits only for SSN. Irreversible masking." },
    { text := "Configure PII detection scanning for all data stores", priority := "Medium", category := "Data Protection", details := "Automated scanning to discover and classify sensitive data." }
    ] },
  { name := "payment",
    keywords := ["credit card", "payment", "visa", "mastercard", "card number", "pan", "cvv"],
    abuse_cases := [
    { threat := "Credit Card Skimming (Magecart)", actor := "External Attacker", description := "Malicious code injected to capture card details during payment.", impact := "Critical", likelihood := "Medium", attack_vector := "JavaScript injection, compromised third-party scripts", stride_category := "Information Disclosure" },
    { threat := "Payment Fraud via Stolen Cards", actor := "External Attacker", description := "Use of stolen credit card information for fraudulent payments.", impact := "High", likelihood := "High", attack_vector := "Purchased card data, phishing", stride_category := "Spoofing" },
    { threat := "Transaction Manipulation", actor := "External Attacker", description := "Manipulation of payment amounts through parameter tampering.", impact := "Critical", likelihood := "Medium", attack_vector := "Request interception, parameter manipulation", stride_category := "Tampering" }
    ],
    requirements := [
    { text := "Never store full PAN - use PCI-certified tokenization", priority := "Critical", category := "Financial & Transaction Security", details := "Integrate with payment processor tokenization. Store only last 4 digits." },
    { text := "Implement PCI DSS v4.0 controls for cardholder data", priority := "Critical", category := "Regulatory Compliance", details := "Segment CDE network. Implement all 12 PCI DSS requirements." },
    { text := "Deploy real-time fraud detection with ML-based scoring", priority := "Critical", category := "Financial & Transaction Security", details := "Score transactions based on amount, frequency, location, device." },
    { text := "Implement secure payment page isolation", priority := "Critical", category := "Financial & Transaction Security", details := "Host payment forms on isolated subdomain. Strict CSP." }
    ] },
  { name := "file_upload",
    keywords := ["upload", "file", "document", "attachment", "receipt", "image"],
    abuse_cases := [
    { threat := "Malware Upload", actor := "External Attacker", description := "Upload of malicious files disguised as legitimate documents.", impact := "Critical", likelihood := "High", attack_vector := "File extension spoofing, MIME type manipulation", stride_category := "Tampering" },
    { threat := "Web Shell Upload", actor := "External Attacker", description := "Upload of server-side scripts for remote command execution.", impact := "Critical", likelihood := "Medium", attack_vector := "PHP/ASP shell upload, double extensions", stride_category := "Elevation of Privilege" },
    { threat := "Path Traversal via Filename", actor := "External Attacker", description := "Manipulated filenames to write files outside intended directory.", impact := "High", likelihood := "Medium", attack_vector := "Filename manipulation (../)", stride_category := "Tampering" }
    ],
    requirements := [
    { text := "Validate file uploads: type whitelist, magic bytes, size limits, AV scan", priority := "Critical", category := "Input Validation", details := "Verify MIME type matches content. Scan with multiple AV engines." },
    { text := "Validate and sanitize all file paths to prevent path traversal", priority := "High", category := "Input Validation", details := "Use canonical path validation. Whitelist allowed directories." },
    { text := "Implement request size limits on all upload endpoints", priority := "High", category := "Input Validation", details := "Limit to 10MB for file uploads. Rate limit by IP and user." }
    ] },
  { name := "wire_transfer",
    keywords := ["wire transfer", "routing number", "bank account", "transfer", "ach"],
    abuse_cases := [
    { threat := "Business Email Compromise (BEC)", actor := "External Attacker", description := "Impersonating executive to authorize fraudulent wire transfer.", impact := "Critical", likelihood := "High", attack_vector := "Email spoofing, account compromise", stride_category := "Spoofing" },
    { threat := "Wire Transfer Redirection", actor := "External Attacker", description := "Manipulating beneficiary bank details to redirect funds.", impact := "Critical", likelihood := "Medium", attack_vector := "Account takeover, parameter tampering", stride_category := "Tampering" }
    ],
    requirements := [
    { text := "Require dual authorization for wire transfers >$10,000", priority := "Critical", category := "Financial & Transaction Security", details := "Two different authorized users must approve." },
    { text := "Implement out-of-band verification for high-risk transactions", priority := "High", category := "Financial & Transaction Security", details := "Send confirmation to registered phone/email." },
    { text := "Deploy beneficiary verification with cooling-off period", priority := "High", category := "Financial & Transaction Security", details := "24-hour delay for first transfer to new beneficiary." }
    ] },
  { name := "health_data",
    keywords := ["medical", "health", "hsa", "diagnosis", "treatment", "hipaa", "phi", "patient"],
    abuse_cases := [
    { threat := "PHI Data Breach", actor := "External Attacker", description := "Mass exfiltration of protected health information.", impact := "Critical", likelihood := "Medium", attack_vector := "SQL injection, API abuse, insider theft", stride_category := "Information Disclosure" },
    { threat := "Medical Identity Theft", actor := "External Attacker", description := "Using stolen health information to obtain medical services.", impact := "Critical", likelihood := "Medium", attack_vector := "Data breach exploitation", stride_category := "Spoofing" }
    ],
    requirements := [
    { text := "Deploy HIPAA Security Rule technical safeguards for PHI", priority := "Critical", category := "Regulatory Compliance", details := "Access controls, audit controls, integrity controls per 45 CFR 164.312." },
    { text := "Log all access to health records with full audit trail", priority := "Critical", category := "Audit Logging", details := "Record who accessed what data, when, from where." },
    { text := "Retain security logs for 6 years (HIPAA requirement)", priority := "High", category := "Audit Logging", details := "Implement tiered storage. Ensure logs are immutable and searchable." }
    ] },
  { name := "financial_data",
    keywords := ["investment", "portfolio", "financial", "retirement", "beneficiary", "account balance"],
    abuse_cases := [
    { threat := "Mass Data Exfiltration", actor := "Malicious Insider", description := "Authorized user exports large amounts of financial data.", impact := "Critical", likelihood := "Medium", attack_vector := "Legitimate export functionality abuse", stride_category := "Information Disclosure" }
    ],
    requirements := [
    { text := "Implement SOX IT controls with segregation of duties", priority := "Critical", category := "Regulatory Compliance", details := "Separate dev, test, prod access. Change management controls." },
    { text := "Configure GLBA Safeguards Rule controls", priority := "High", category := "Regulatory Compliance", details := "Risk assessment, employee training, vendor management." },
    { text := "Implement data loss prevention (DLP) at egress points", priority := "High", category := "Data Protection", details := "Monitor and block sensitive data patterns in exports." }
    ] }
]

def BASELINE_REQUIREMENTS : List ReqT := [
  { text := "Enforce TLS 1.3 for all data in transit", priority := "Critical", category := "Data Protection", details := "Disable TLS 1.0/1.1. Implement HSTS with 1-year max-age." },
  { text := "Implement strict input validation whitelist on all user inputs", priority := "Critical", category := "Input Validation", details := "Validate data type, length, format, and range." },
  { text := "Use parameterized queries for all database operations", priority := "Critical", category := "Input Validation", details := "Never concatenate user input into SQL." },
  { text := "Log all authentication events with full context", priority := "Critical", category := "Audit Logging", details := "Include timestamp, user ID, IP, user agent, geo-location." },
  { text := "Implement tamper-evident logging with cryptographic chaining", priority := "High", category := "Audit Logging", details := "Hash each log entry with previous entry hash." },
  { text := "Deploy Content Security Policy (CSP) with strict-dynamic", priority := "High", category := "Input Validation", details := "Disable unsafe-inline and unsafe-eval." },
  { text := "Implement secrets management (e.g., Vault)", priority := "Critical", category := "Secure Architecture", details := "Never store secrets in code or config files. Rotate automatically." },
  { text := "Implement zero-trust network architecture", priority := "High", category := "Secure Architecture", details := "Verify every access request. Least-privilege network access." }
]
/-! ### The template analysis engine (`analyze_with_templates`) -/

/-- Line 121 of the source: the lower-cased search text
`f"{title} {description} {acceptance_criteria or ''}".lower()`. -/
def searchText (title description : String) (acceptance_criteria : Option String) : String :=
  strLower (title ++ " " ++ description ++ " " ++ acceptance_criteria.getD "")

/-- A pattern is detected when any of its keywords occurs in the search text
(line 129 of the source). -/
def patternDetected (text : String) (p : Pattern) : Bool :=
  p.keywords.any (fun kw => strContains text kw)

/-- The detected patterns, in `PATTERNS` (dict-insertion) order; the loop of
lines 128-134 visits exactly these. -/
def detectedPatterns (text : String) : List Pattern :=
  PATTERNS.filter (patternDetected text)

/-- The `abuse_cases` working list after the detection loop: the abuse cases
of every detected pattern, concatenated in pattern order. -/
def rawAbuseCases (text : String) : List AbuseCaseT :=
  ((detectedPatterns text).map Pattern.abuse_cases).flatten

/-- The `requirements` working list after the detection loop and
`requirements.extend(BASELINE_REQUIREMENTS)` (lines 133-137). -/
def rawRequirements (text : String) : List ReqT :=
  ((detectedPatterns text).map Pattern.requirements).flatten ++ BASELINE_REQUIREMENTS

/-- The dedup loop of lines 140-146: keep a requirement iff its `text` is not
in `seen_texts`, accumulating `seen_texts` left to right. -/
def dedupByText (seen : List String) : List ReqT → List ReqT
  | [] => []
  | r :: rest =>
    if r.text ∈ seen then dedupByText seen rest
    else r :: dedupByText (r.text :: seen) rest

/-- First-occurrence deduplication of a list of strings (the order in which
Python's insertion-ordered `set`/`dict` keys are first seen). -/
def firstOccurrences (seen : List String) : List String → List String
  | [] => []
  | x :: xs =>
    if x ∈ seen then firstOccurrences seen xs
    else x :: firstOccurrences (x :: seen) xs

/-- `for i, ac in enumerate(abuse_cases, 1): ac["id"] = _id("AC", i)`
(lines 149-150), as the emitted list with ids attached. -/
def assignAbuseIdsFrom (n : Nat) : List AbuseCaseT → List AbuseCase
  | [] => []
  | a :: rest => { toAbuseCaseT := a, id := mkId "AC" n } :: assignAbuseIdsFrom (n + 1) rest

/-- `for i, req in enumerate(requirements, 1): req["id"] = _id("SR", i)`
(lines 151-152). -/
def assignReqIdsFrom (n : Nat) : List ReqT → List SecurityRequirement
  | [] => []
  | r :: rest => { toReqT := r, id := mkId "SR" n } :: assignReqIdsFrom (n + 1) rest

/-- The group of abuse cases sharing one `stride_category` (the value lists of
the `stride_categories` dict built in lines 155-160). -/
def strideGroup (acs : List AbuseCase) (cat : String) : List AbuseCase :=
  acs.filter (fun a => a.stride_category == cat)

/-- The `StrideThreat` emitted for one category group (lines 162-168): name and
risk level come from the first case of the group, the description states the
group size.  The `[]` branch is unreachable because categories are drawn from
the abuse cases themselves. -/
def strideThreatFor (acs : List AbuseCase) (cat : String) : StrideThreat :=
  match strideGroup acs cat with
  | [] => { category := cat, threat := "", description := "0 threat(s) identified in this category", risk_level := "" }
  | c :: cs =>
    { category := cat
      threat := c.threat
      description := toString (c :: cs).length ++ " threat(s) identified in this category"
      risk_level := c.impact }

/-- Lines 154-168: one `StrideThreat` per distinct `stride_category`, in
first-occurrence order (Python dict keys preserve insertion order). -/
def strideThreatsOf (acs : List AbuseCase) : List StrideThreat :=
  (firstOccurrences [] (acs.map (fun a => a.stride_category))).map (strideThreatFor acs)

/-- Lines 170-173: `min(100, critical*12 + high*6 + len(detected_categories)*8)`.
The abuse-case dicts counted there are the same objects as the emitted list,
and `detected_categories` is the set of detected pattern names. -/
def riskScoreOf (acs : List AbuseCaseT) (detectedNames : List String) : Nat :=
  min 100 (12 * acs.countP (fun a => a.impact == "Critical")
    + 6 * acs.countP (fun a => a.impact == "High")
    + 8 * detectedNames.length)

/-- `analyze_with_templates(title, description, acceptance_criteria)`
(lines 120-180), returning the value of the result dict. -/
def analyze_with_templates (title description : String)
    (acceptance_criteria : Option String) : AnalysisResult :=
  let text := searchText title description acceptance_criteria
  let abuse_cases := assignAbuseIdsFrom 1 (rawAbuseCases text)
  let requirements := assignReqIdsFrom 1 (dedupByText [] (rawRequirements text))
  { abuse_cases := abuse_cases
    stride_threats := strideThreatsOf abuse_cases
    security_requirements := requirements
    risk_score := riskScoreOf (rawAbuseCases text)
      (firstOccurrences [] ((detectedPatterns text).map Pattern.name)) }

/-! ### The compliance mapper (`compliance_mapper.py`) -/

/-- A control loaded from a built-in catalog data file.  The source reads
dicts and uses `c.get("id", "")` / `c.get("title", "")`; a missing key is
modelled by the empty string. -/
structure Control where
  id : String
  title : String
deriving Repr, DecidableEq

/-- One control of a caller-supplied custom standard; the source reads
`control.get("category", "")`, `control.get("control_id", "")`,
`control.get("title", "")`. -/
structure CustomControl where
  category : String
  control_id : String
  title : String
deriving Repr, DecidableEq

/-- A caller-supplied custom standard: `cs.get("name", "Custom")` and
`cs.get("controls", [])`.  `name := none` models an absent `name` key. -/
structure CustomStandard where
  name : Option String
  controls : List CustomControl
deriving Repr, DecidableEq

/-- The slice of a security-requirement dict the mapper reads:
`req.get("id", "")` and `req.get("category", "")`. -/
structure Req where
  id : String
  category : String
deriving Repr, DecidableEq

/-- One element of the returned mappings list. -/
structure Mapping where
  requirement_id : String
  standard_name : String
  control_id : String
  control_title : String
  relevance_score : ℚ
deriving Repr, DecidableEq

/-- Python `d.get(k, default)` over an insertion-ordered dict modelled as an
association list. -/
def lookupD (m : List (String × α)) (k : String) (dflt : α) : α :=
  match m.find? (fun e => e.1 == k) with
  | some e => e.2
  | none => dflt

/-- `STANDARD_CATEGORY_MAP` (lines 12-71 of `compliance_mapper.py`):
requirement category → control-id prefixes, per built-in standard. -/
def STANDARD_CATEGORY_MAP : List (String × List (String × List String)) := [
  ("OWASP_ASVS", [
    ("Authentication & Access Control", ["V2", "V3", "V4"]),
    ("Data Protection", ["V6", "V8"]),
    ("Input Validation", ["V5"]),
    ("Audit Logging", ["V7"]),
    ("Financial & Transaction Security", ["V6", "V11"]),
    ("Regulatory Compliance", ["V10"]),
    ("Secure Architecture", ["V1", "V10", "V14"])]),
  ("NIST_800_53", [
    ("Authentication & Access Control", ["AC", "IA"]),
    ("Data Protection", ["SC", "MP"]),
    ("Input Validation", ["SI"]),
    ("Audit Logging", ["AU"]),
    ("Financial & Transaction Security", ["SC", "AC"]),
    ("Regulatory Compliance", ["CA", "PL"]),
    ("Secure Architecture", ["SA", "SC"])]),
  ("ISO_27001", [
    ("Authentication & Access Control", ["A.9"]),
    ("Data Protection", ["A.10", "A.18"]),
    ("Input Validation", ["A.14"]),
    ("Audit Logging", ["A.12"]),
    ("Financial & Transaction Security", ["A.10", "A.14"]),
    ("Regulatory Compliance", ["A.18"]),
    ("Secure Architecture", ["A.13", "A.14"])]),
  ("PCI_DSS", [
    ("Authentication & Access Control", ["Req 7", "Req 8"]),
    ("Data Protection", ["Req 3", "Req 4"]),
    ("Input Validation", ["Req 6"]),
    ("Audit Logging", ["Req 10"]),
    ("Financial & Transaction Security", ["Req 3", "Req 4"]),
    ("Regulatory Compliance", ["Req 12"]),
    ("Secure Architecture", ["Req 1", "Req 2"])]),
  ("HIPAA", [
    ("Authentication & Access Control", ["164.312(d)", "164.312(a)"]),
    ("Data Protection", ["164.312(a)(2)(iv)", "164.312(e)"]),
    ("Input Validation", ["164.312(c)"]),
    ("Audit Logging", ["164.312(b)"]),
    ("Regulatory Compliance", ["164.308", "164.316"]),
    ("Secure Architecture", ["164.312(e)"])]),
  ("SOX", [
    ("Authentication & Access Control", ["ITGC-AC"]),
    ("Data Protection", ["ITGC-DP"]),
    ("Audit Logging", ["ITGC-AL"]),
    ("Financial & Transaction Security", ["ITGC-FC"]),
    ("Regulatory Compliance", ["ITGC-CM"]),
    ("Secure Architecture", ["ITGC-SA"])]),
  ("GDPR", [
    ("Authentication & Access Control", ["Art 25", "Art 32"]),
    ("Data Protection", ["Art 5", "Art 32"]),
    ("Audit Logging", ["Art 30"]),
    ("Regulatory Compliance", ["Art 35", "Art 37"])])]

/-- The mappings the inner prefix loop (lines 107-127) emits for one prefix:
the catalog controls whose id starts with the prefix, capped at the first 2,
at relevance 0.8 — or one synthetic mapping at relevance 0.6 when none match.
`controls_data` is the list `_load_standard(std_name)` returned. -/
def mappingsForPfx (req : Req) (std_name : String) (controls_data : List Control)
    (pfx : String) : List Mapping :=
  let matched := controls_data.filter (fun c => strStartsWith c.id pfx)
  if matched.isEmpty then
    [{ requirement_id := req.id
       standard_name := std_name
       control_id := pfx
       control_title := std_name ++ " control " ++ pfx
       relevance_score := 0.6 }]
  else
    (matched.take 2).map (fun c =>
      { requirement_id := req.id
        standard_name := std_name
        control_id := c.id
        control_title := c.title
        relevance_score := 0.8 })

/-- Lines 100-127 for one requirement and one requested standard.
`load` models `_load_standard`: the parsed contents of the standard's data
file, or `[]` when the file does not exist. -/
def builtinMappingsFor (load : String → List Control) (req : Req)
    (std_name : String) : List Mapping :=
  let category_map := lookupD STANDARD_CATEGORY_MAP std_name []
  let matched_controls := lookupD category_map req.category []
  let controls_data := load std_name
  (matched_controls.map (mappingsForPfx req std_name controls_data)).flatten

/-- Lines 131-142 for one requirement and one custom standard: a mapping per
control whose (lower-cased) category is non-empty and is a substring of the
requirement's category or vice versa. -/
def customMappingsFor (req : Req) (cs : CustomStandard) : List Mapping :=
  (cs.controls.map (fun control =>
    let ctrl_cat := strLower control.category
    let req_cat_lower := strLower req.category
    if ctrl_cat != "" && (strContains req_cat_lower ctrl_cat
        || strContains ctrl_cat req_cat_lower) then
      [{ requirement_id := req.id
         standard_name := cs.name.getD "Custom"
         control_id := control.control_id
         control_title := control.title
         relevance_score := 0.7 }]
    else [])).flatten

/-- `map_requirements_to_standards` (lines 82-144).  `standards = none`
defaults to all built-in standards; `custom_standards = none` (or an empty
list, which Python treats as falsy and which contributes nothing either way)
adds no custom mappings. -/
def map_requirements_to_standards (load : String → List Control)
    (security_requirements : List Req) (standards : Option (List String))
    (custom_standards : Option (List CustomStandard)) : List Mapping :=
  let stds := standards.getD (STANDARD_CATEGORY_MAP.map Prod.fst)
  (security_requirements.map (fun req =>
    (stds.map (builtinMappingsFor load req)).flatten
      ++ ((custom_standards.getD []).map (customMappingsFor req)).flatten)).flatten

/-! ### Analysis versioning (`routers/analysis.py`, `models/analysis.py`) -/

/-- The slice of a stored `SecurityAnalysis` row that the versioning invariant
concerns.  Story UUIDs are modelled as naturals (only equality is used). -/
structure StoredAnalysis where
  user_story_id : Nat
  version : Nat
deriving Repr, DecidableEq

/-- `select(func.max(SecurityAnalysis.version)).where(user_story_id == story.id)`
followed by `.scalar() or 0` (lines 31-33 of `routers/analysis.py`): the
maximum stored version for the story, or 0 when none exist. -/
def maxVersion (store : List StoredAnalysis) (sid : Nat) : Nat :=
  ((store.filter (fun a => a.user_story_id == sid)).map StoredAnalysis.version).foldr max 0

/-- `_analyze_single_story`, restricted to its effect on the stored analyses:
a new row with `version = max_version + 1` is added (lines 46-56). -/
def analyzeSingleStory (store : List StoredAnalysis) (sid : Nat) : List StoredAnalysis :=
  store ++ [{ user_story_id := sid, version := maxVersion store sid + 1 }]

/-- A run that fails adds no row: in `bulk_analyze` (lines 115-121) the
exception is caught and the story is skipped, leaving the store as it was. -/
def failedRun (store : List StoredAnalysis) : List StoredAnalysis :=
  store

/-- The invariant of the `security_analyses` table: every version is at least
1, and `(user_story_id, version)` pairs are pairwise distinct (the
`UniqueConstraint("user_story_id", "version")` of `models/analysis.py`). -/
def VersionsOK (store : List StoredAnalysis) : Prop :=
  (∀ a ∈ store, 1 ≤ a.version) ∧
    (store.map (fun a => (a.user_story_id, a.version))).Nodup

instance : DecidablePred VersionsOK := fun s => by
  unfold VersionsOK; infer_instance

/-! ### The analyzer's effect on the global tables

`analyze_with_templates` appends the very dict objects stored in `PATTERNS`
and `BASELINE_REQUIREMENTS` to its working lists (lines 131-137 of
`template_analyzer.py`), so the id-assignment loops of lines 148-152 write
`"id"` keys into those shared globals.  The definitions below embed the same
function as an explicit state transformer on the two tables, tracking the
possibly-present `"id"` key of each template dict. -/

/-- An abuse-case dict of the pattern library, with its possibly-present
`"id"` key (`none` = the key is absent, as at process start). -/
structure AbuseCaseM extends AbuseCaseT where
  id : Option String
deriving Repr, DecidableEq

/-- A requirement dict with its possibly-present `"id"` key. -/
structure ReqM extends ReqT where
  id : Option String
deriving Repr, DecidableEq

/-- A `PATTERNS` entry whose template dicts carry their `"id"` state. -/
structure PatternM where
  name : String
  keywords : List String
  abuse_cases : List AbuseCaseM
  requirements : List ReqM
deriving Repr, DecidableEq

/-- The `PATTERNS` table as it is at process start: no dict has an `"id"` key. -/
def PATTERNS_M : List PatternM :=
  PATTERNS.map (fun p =>
    { name := p.name
      keywords := p.keywords
      abuse_cases := p.abuse_cases.map (fun a => { toAbuseCaseT := a, id := none })
      requirements := p.requirements.map (fun r => { toReqT := r, id := none }) })

/-- `BASELINE_REQUIREMENTS` at process start: no dict has an `"id"` key. -/
def BASELINE_REQUIREMENTS_M : List ReqM :=
  BASELINE_REQUIREMENTS.map (fun r => { toReqT := r, id := none })

/-- The effect of `for i, ac in enumerate(abuse_cases, 1): ac["id"] = _id("AC", i)`
on one detected pattern's abuse-case dicts, whose first element sits at
(1-based) position `n` of the concatenated `abuse_cases` list. -/
def stampACs (n : Nat) : List AbuseCaseM → List AbuseCaseM
  | [] => []
  | a :: rest => { a with id := some (mkId "AC" n) } :: stampACs (n + 1) rest

/-- The effect of the dedup loop (lines 140-146) plus the id loop (lines
151-152) on a run of requirement dicts: a dict whose text was already seen is
dropped from `unique_reqs` and keeps its old `"id"` value; a first occurrence
is stamped with the next sequential `SR` id.  Returns the updated dicts, the
extended `seen_texts`, and the next id number. -/
def stampReqs (seen : List String) (n : Nat) :
    List ReqM → List ReqM × List String × Nat
  | [] => ([], seen, n)
  | r :: rest =>
    if r.text ∈ seen then
      let s := stampReqs seen n rest
      (r :: s.1, s.2)
    else
      let s := stampReqs (r.text :: seen) (n + 1) rest
      ({ r with id := some (mkId "SR" n) } :: s.1, s.2)

/-- The analyzer's pass over the pattern table: a detected pattern (any
keyword occurs in `text`) has its abuse-case dicts stamped with the running
`AC` counter and its requirement dicts fed through the dedup/`SR`-stamping
state; an undetected pattern is untouched.  Returns the updated table, the
next `AC` number, the next `SR` number, and the accumulated `seen_texts`. -/
def stampPatterns (text : String) (acN reqN : Nat) (seen : List String) :
    List PatternM → List PatternM × Nat × Nat × List String
  | [] => ([], acN, reqN, seen)
  | p :: ps =>
    if p.keywords.any (fun kw => strContains text kw) then
      let reqStep := stampReqs seen reqN p.requirements
      let rest := stampPatterns text (acN + p.abuse_cases.length) reqStep.2.2 reqStep.2.1 ps
      ({ p with abuse_cases := stampACs acN p.abuse_cases, requirements := reqStep.1 } :: rest.1,
        rest.2)
    else
      let rest := stampPatterns text acN reqN seen ps
      (p :: rest.1, rest.2)

/-- `analyze_with_templates` as a state transformer on the global tables: the
values of `PATTERNS` and `BASELINE_REQUIREMENTS` after one call with the given
inputs.  The returned analysis payload is the one computed by
`analyze_with_templates` above; only the table state is tracked here. -/
def analyzeGlobals (pats : List PatternM) (base : List ReqM)
    (title description : String) (acceptance_criteria : Option String) :
    List PatternM × List ReqM :=
  let text := searchText title description acceptance_criteria
  let patStep := stampPatterns text 1 1 [] pats
  let baseStep := stampReqs patStep.2.2.2 patStep.2.2.1 base
  (patStep.1, baseStep.1)

/-! ### Lemmas about the helper functions -/

theorem assignAbuseIdsFrom_map_toT (n : Nat) (l : List AbuseCaseT) :
    (assignAbuseIdsFrom n l).map AbuseCase.toAbuseCaseT = l := by
  induction l generalizing n with
  | nil => rfl
  | cons a rest ih => simp [assignAbuseIdsFrom, ih]

theorem assignReqIdsFrom_map_toT (n : Nat) (l : List ReqT) :
    (assignReqIdsFrom n l).map SecurityRequirement.toReqT = l := by
  induction l generalizing n with
  | nil => rfl
  | cons r rest ih => simp [assignReqIdsFrom, ih]

theorem assignAbuseIdsFrom_countP_impact (s : String) (n : Nat) (l : List AbuseCaseT) :
    (assignAbuseIdsFrom n l).countP (fun a => a.impact == s)
      = l.countP (fun a => a.impact == s) := by
  induction l generalizing n with
  | nil => rfl
  | cons a rest ih => simp [assignAbuseIdsFrom, List.countP_cons, ih]

theorem assignReqIdsFrom_map_text (n : Nat) (l : List ReqT) :
    (assignReqIdsFrom n l).map (fun r => r.text) = l.map ReqT.text := by
  induction l generalizing n with
  | nil => rfl
  | cons r rest ih => simp [assignReqIdsFrom, ih]

theorem assignAbuseIdsFrom_get (l : List AbuseCaseT) (n : Nat)
    (i : Fin (assignAbuseIdsFrom n l).length) :
    ((assignAbuseIdsFrom n l).get i).id = mkId "AC" (n + i.val) := by
  induction l generalizing n with
  | nil => exact absurd i.isLt (by simp [assignAbuseIdsFrom])
  | cons a rest ih =>
    match i with
    | ⟨0, _⟩ => simp [assignAbuseIdsFrom]
    | ⟨k + 1, hk⟩ =>
      have hk' : k < (assignAbuseIdsFrom (n + 1) rest).length := by
        simpa [assignAbuseIdsFrom] using hk
      have := ih (n + 1) ⟨k, hk'⟩
      simpa [assignAbuseIdsFrom, List.get, Nat.add_assoc, Nat.add_comm 1 k] using this

theorem assignReqIdsFrom_get (l : List ReqT) (n : Nat)
    (i : Fin (assignReqIdsFrom n l).length) :
    ((assignReqIdsFrom n l).get i).id = mkId "SR" (n + i.val) := by
  induction l generalizing n with
  | nil => exact absurd i.isLt (by simp [assignReqIdsFrom])
  | cons r rest ih =>
    match i with
    | ⟨0, _⟩ => simp [assignReqIdsFrom]
    | ⟨k + 1, hk⟩ =>
      have hk' : k < (assignReqIdsFrom (n + 1) rest).length := by
        simpa [assignReqIdsFrom] using hk
      have := ih (n + 1) ⟨k, hk'⟩
      simpa [assignReqIdsFrom, List.get, Nat.add_assoc, Nat.add_comm 1 k] using this

theorem mem_firstOccurrences {a : String} :
    ∀ (seen l : List String), a ∈ firstOccurrences seen l ↔ a ∈ l ∧ a ∉ seen := by
  intro seen l
  induction l generalizing seen with
  | nil => simp [firstOccurrences]
  | cons x xs ih =>
    by_cases hx : x ∈ seen
    · simp only [firstOccurrences]
      rw [if_pos hx, ih]
      constructor
      · rintro ⟨h1, h2⟩
        exact ⟨List.mem_cons_of_mem x h1, h2⟩
      · rintro ⟨h1, h2⟩
        rcases List.mem_cons.mp h1 with rfl | h1
        · exact absurd hx h2
        · exact ⟨h1, h2⟩
    · simp only [firstOccurrences]
      rw [if_neg hx]
      constructor
      · intro h
        rcases List.mem_cons.mp h with rfl | h
        · exact ⟨List.mem_cons_self a xs, hx⟩
        · have := (ih (x :: seen)).mp h
          exact ⟨List.mem_cons_of_mem x this.1,
            fun hs => this.2 (List.mem_cons_of_mem x hs)⟩
      · rintro ⟨h1, h2⟩
        rcases List.mem_cons.mp h1 with rfl | h1
        · exact List.mem_cons_self a _
        · by_cases hax : a = x
          · subst hax; exact List.mem_cons_self a _
          · exact List.mem_cons_of_mem x
              ((ih (x :: seen)).mpr ⟨h1, by simp [hax, h2]⟩)

theorem firstOccurrences_nodup : ∀ (seen l : List String),
    (firstOccurrences seen l).Nodup := by
  intro seen l
  induction l generalizing seen with
  | nil => simp [firstOccurrences]
  | cons x xs ih =>
    by_cases hx : x ∈ seen
    · simp only [firstOccurrences]
      rw [if_pos hx]; exact ih seen
    · simp only [firstOccurrences]
      rw [if_neg hx]
      refine List.nodup_cons.mpr ⟨fun hmem => ?_, ih (x :: seen)⟩
      exact (mem_firstOccurrences _ _ |>.mp hmem).2 (List.mem_cons_self x seen)

theorem firstOccurrences_eq_self (seen l : List String) (hl : l.Nodup)
    (hs : ∀ x ∈ l, x ∉ seen) : firstOccurrences seen l = l := by
  induction l generalizing seen with
  | nil => rfl
  | cons x xs ih =>
    simp only [firstOccurrences]
    rw [if_neg (hs x (List.mem_cons_self x xs))]
    have hxs : xs.Nodup := (List.nodup_cons.mp hl).2
    have hx : x ∉ xs := (List.nodup_cons.mp hl).1
    refine congrArg (x :: ·) (ih (x :: seen) hxs fun y hy => ?_)
    intro hmem
    rcases List.mem_cons.mp hmem with rfl | h
    · exact hx hy
    · exact hs y (List.mem_cons_of_mem x hy) h

theorem firstOccurrences_ne_nil (x : String) (xs : List String) :
    firstOccurrences [] (x :: xs) ≠ [] := by
  simp only [firstOccurrences]
  rw [if_neg (List.not_mem_nil x)]
  exact List.cons_ne_nil _ _

theorem dedupByText_map_text (seen : List String) (l : List ReqT) :
    (dedupByText seen l).map (fun r => r.text)
      = firstOccurrences seen (l.map ReqT.text) := by
  induction l generalizing seen with
  | nil => rfl
  | cons r rest ih =>
    by_cases h : r.text ∈ seen
    · simp only [dedupByText, firstOccurrences, List.map_cons]
      rw [if_pos h, if_pos h, ih]
    · simp only [dedupByText, firstOccurrences, List.map_cons]
      rw [if_neg h, if_neg h, List.map_cons, ih]

theorem find?_eq_head_filter (p : α → Bool) (l : List α) :
    l.find? p = (l.filter p).head? := by
  induction l with
  | nil => rfl
  | cons a t ih =>
    by_cases h : p a
    · rw [List.find?_cons_of_pos _ h, List.filter_cons_of_pos h]; rfl
    · rw [List.find?_cons_of_neg _ h, List.filter_cons_of_neg h, ih]

theorem le_foldr_max (l : List Nat) (x : Nat) (hx : x ∈ l) :
    x ≤ l.foldr max 0 := by
  induction l with
  | nil => cases hx
  | cons y ys ih =>
    rcases List.mem_cons.mp hx with rfl | h
    · exact Nat.le_max_left _ _
    · exact Nat.le_trans (ih h) (Nat.le_max_right _ _)

/-! ### Claim theorems -/

theorem patterns_names_nodup : (PATTERNS.map Pattern.name).Nodup := by decide

theorem detected_names_length (text : String) :
    (firstOccurrences [] ((detectedPatterns text).map Pattern.name)).length
      = (detectedPatterns text).length := by
  have hsub : List.Sublist ((detectedPatterns text).map Pattern.name)
      (PATTERNS.map Pattern.name) :=
    (List.filter_sublist PATTERNS).map Pattern.name
  have h1 : ((detectedPatterns text).map Pattern.name).Nodup :=
    patterns_names_nodup.sublist hsub
  rw [firstOccurrences_eq_self [] _ h1 (by simp), List.length_map]

/-- Unfolding lemma: the `risk_score` field of the analyzer's result. -/
theorem analyze_risk_score_eq (t d : String) (a : Option String) :
    (analyze_with_templates t d a).risk_score
      = riskScoreOf (rawAbuseCases (searchText t d a))
          (firstOccurrences [] ((detectedPatterns (searchText t d a)).map Pattern.name)) := rfl

/-- Unfolding lemma: the `abuse_cases` field of the analyzer's result. -/
theorem analyze_abuse_cases_eq (t d : String) (a : Option String) :
    (analyze_with_templates t d a).abuse_cases
      = assignAbuseIdsFrom 1 (rawAbuseCases (searchText t d a)) := rfl

/-- Unfolding lemma: the `security_requirements` field of the analyzer's result. -/
theorem analyze_security_requirements_eq (t d : String) (a : Option String) :
    (analyze_with_templates t d a).security_requirements
      = assignReqIdsFrom 1 (dedupByText [] (rawRequirements (searchText t d a))) := rfl

/-- Unfolding lemma: the `stride_threats` field of the analyzer's result. -/
theorem analyze_stride_threats_eq (t d : String) (a : Option String) :
    (analyze_with_templates t d a).stride_threats
      = strideThreatsOf (assignAbuseIdsFrom 1 (rawAbuseCases (searchText t d a))) := rfl

/-- C1: the risk score returned by `analyze_with_templates` equals
`min(100, 12*C + 6*H + 8*P)` where `C` and `H` count the emitted abuse cases
with impact `"Critical"` and `"High"` and `P` is the number of detected
patterns; Medium/Low impacts contribute nothing and the score is at most 100
(it is a natural number, hence at least 0). -/
theorem risk_score_formula (title description : String)
    (acceptance_criteria : Option String) :
    (analyze_with_templates title description acceptance_criteria).risk_score
      = min 100 (12 * ((analyze_with_templates title description acceptance_criteria).abuse_cases.countP
            (fun a => a.impact == "Critical"))
          + 6 * ((analyze_with_templates title description acceptance_criteria).abuse_cases.countP
            (fun a => a.impact == "High"))
          + 8 * (detectedPatterns (searchText title description acceptance_criteria)).length)
    ∧ (analyze_with_templates title description acceptance_criteria).risk_score ≤ 100 := by
  constructor
  · rw [analyze_risk_score_eq, analyze_abuse_cases_eq]
    simp only [riskScoreOf]
    rw [assignAbuseIdsFrom_countP_impact, assignAbuseIdsFrom_countP_impact,
      detected_names_length]
  · rw [analyze_risk_score_eq]
    simp only [riskScoreOf]
    exact Nat.min_le_left _ _

/-- C2: `analyze_with_templates` always returns a non-empty requirements list
containing an entry for every baseline requirement's text; the list is
deduplicated by `text` keeping first occurrences in order, so no two entries
share a text. -/
theorem requirements_baseline_dedup (title description : String)
    (acceptance_criteria : Option String) :
    (analyze_with_templates title description acceptance_criteria).security_requirements ≠ []
    ∧ (∀ b ∈ BASELINE_REQUIREMENTS,
        ∃ sr ∈ (analyze_with_templates title description acceptance_criteria).security_requirements,
          sr.text = b.text)
    ∧ (analyze_with_templates title description acceptance_criteria).security_requirements.map
          (fun sr => sr.text)
        = firstOccurrences []
            ((rawRequirements (searchText title description acceptance_criteria)).map ReqT.text)
    ∧ ((analyze_with_templates title description acceptance_criteria).security_requirements.map
          (fun sr => sr.text)).Nodup := by
  have hmap : (analyze_with_templates title description acceptance_criteria).security_requirements.map
        (fun sr => sr.text)
      = firstOccurrences []
          ((rawRequirements (searchText title description acceptance_criteria)).map ReqT.text) := by
    rw [analyze_security_requirements_eq,
      show (fun sr : SecurityRequirement => sr.text) = ReqT.text ∘ SecurityRequirement.toReqT
        from rfl, ← List.map_map, assignReqIdsFrom_map_toT]
    exact dedupByText_map_text [] _
  refine ⟨?_, ?_, hmap, ?_⟩
  · intro hnil
    have : firstOccurrences []
        ((rawRequirements (searchText title description acceptance_criteria)).map ReqT.text)
        = [] := by
      rw [← hmap, hnil]; rfl
    have hb : (BASELINE_REQUIREMENTS.head?.map ReqT.text).isSome := by decide
    rcases hcons : (rawRequirements (searchText title description acceptance_criteria)).map ReqT.text
        with _ | ⟨x, xs⟩
    · have : BASELINE_REQUIREMENTS = [] := by
        have := congrArg List.length hcons
        simp [rawRequirements] at this
        exact this.2
      simp [this] at hb
    · rw [hcons] at this
      exact firstOccurrences_ne_nil x xs this
  · intro b hb
    have hbt : b.text ∈ (rawRequirements (searchText title description acceptance_criteria)).map
        ReqT.text :=
      List.mem_map_of_mem ReqT.text (by simp [rawRequirements, hb])
    have : b.text ∈ (analyze_with_templates title description acceptance_criteria).security_requirements.map
        (fun sr => sr.text) := by
      rw [hmap]
      exact (mem_firstOccurrences _ _).mpr ⟨hbt, List.not_mem_nil _⟩
    rcases List.mem_map.mp this with ⟨sr, hsr, hst⟩
    exact ⟨sr, hsr, hst⟩
  · rw [hmap]; exact firstOccurrences_nodup _ _

theorem strideThreatFor_category (acs : List AbuseCase) (cat : String) :
    (strideThreatFor acs cat).category = cat := by
  unfold strideThreatFor
  cases h : strideGroup acs cat <;> simp [h]

theorem strideThreatsOf_map_category (acs : List AbuseCase) :
    (strideThreatsOf acs).map StrideThreat.category
      = firstOccurrences [] (acs.map (fun a => a.stride_category)) := by
  unfold strideThreatsOf
  rw [List.map_map]
  refine Eq.trans (List.map_congr_left fun c _ => ?_) (List.map_id _)
  exact strideThreatFor_category acs c

theorem strideThreatsOf_spec (acs : List AbuseCase) :
    ∀ th ∈ strideThreatsOf acs, ∃ c,
      acs.find? (fun x => x.stride_category == th.category) = some c
      ∧ th.threat = c.threat ∧ th.risk_level = c.impact
      ∧ th.description = toString (acs.countP (fun x => x.stride_category == th.category))
          ++ " threat(s) identified in this category" := by
  intro th hth
  rcases List.mem_map.mp hth with ⟨cat, hcat, rfl⟩
  have hcat' : cat ∈ acs.map (fun a => a.stride_category) :=
    ((mem_firstOccurrences _ _).mp hcat).1
  rcases List.mem_map.mp hcat' with ⟨a0, ha0, rfl⟩
  have hmem : a0 ∈ strideGroup acs a0.stride_category :=
    List.mem_filter.mpr ⟨ha0, by simp⟩
  rcases hg : strideGroup acs a0.stride_category with _ | ⟨c, cs⟩
  · rw [hg] at hmem; cases hmem
  · refine ⟨c, ?_, ?_, ?_, ?_⟩
    · rw [strideThreatFor_category, find?_eq_head_filter]
      have : acs.filter (fun x => x.stride_category == a0.stride_category) = c :: cs := hg
      rw [this]; rfl
    · unfold strideThreatFor
      rw [hg]
    · unfold strideThreatFor
      rw [hg]
    · rw [strideThreatFor_category, List.countP_eq_length_filter]
      have : acs.filter (fun x => x.stride_category == a0.stride_category) = c :: cs := hg
      rw [this]
      unfold strideThreatFor
      rw [hg]

/-- C5: `analyze_with_templates` emits exactly one STRIDE threat per distinct
`stride_category` among the run's abuse cases, in first-occurrence order; each
threat's name and risk level come from the first abuse case of its category
and its description states the number of cases in the category. -/
theorem stride_threats_grouping (title description : String)
    (acceptance_criteria : Option String) :
    (analyze_with_templates title description acceptance_criteria).stride_threats.map
          StrideThreat.category
        = firstOccurrences []
            ((analyze_with_templates title description acceptance_criteria).abuse_cases.map
              (fun a => a.stride_category))
    ∧ (analyze_with_templates title description acceptance_criteria).stride_threats.length
        = (firstOccurrences []
            ((analyze_with_templates title description acceptance_criteria).abuse_cases.map
              (fun a => a.stride_category))).length
    ∧ ∀ th ∈ (analyze_with_templates title description acceptance_criteria).stride_threats, ∃ c,
        (analyze_with_templates title description acceptance_criteria).abuse_cases.find?
            (fun x => x.stride_category == th.category) = some c
        ∧ th.threat = c.threat ∧ th.risk_level = c.impact
        ∧ th.description = toString
            ((analyze_with_templates title description acceptance_criteria).abuse_cases.countP
              (fun x => x.stride_category == th.category))
            ++ " threat(s) identified in this category" := by
  rw [analyze_stride_threats_eq, analyze_abuse_cases_eq]
  have h1 := strideThreatsOf_map_category
    (assignAbuseIdsFrom 1 (rawAbuseCases (searchText title description acceptance_criteria)))
  refine ⟨h1, ?_, strideThreatsOf_spec _⟩
  rw [← h1, List.length_map]

/-- C6: emitted abuse cases carry ids `AC-001`, `AC-002`, … and emitted
requirements carry ids `SR-001`, `SR-002`, …: the `i`-th element (0-based) has
the 1-based index `i+1`, zero-padded to three digits. -/
theorem sequential_ids (title description : String)
    (acceptance_criteria : Option String) :
    (∀ i : Fin (analyze_with_templates title description acceptance_criteria).abuse_cases.length,
      ((analyze_with_templates title description acceptance_criteria).abuse_cases.get i).id
        = "AC-" ++ pad3 (i.val + 1))
    ∧ (∀ j : Fin (analyze_with_templates title description acceptance_criteria).security_requirements.length,
      ((analyze_with_templates title description acceptance_criteria).security_requirements.get j).id
        = "SR-" ++ pad3 (j.val + 1)) := by
  constructor
  · intro i
    have := assignAbuseIdsFrom_get
      (rawAbuseCases (searchText title description acceptance_criteria)) 1
      (i.cast (by rw [analyze_abuse_cases_eq]))
    rw [mkId] at this
    simpa [analyze_abuse_cases_eq, Fin.coe_cast, Nat.add_comm 1,
      show ("AC" ++ "-" : String) = "AC-" from rfl] using this
  · intro j
    have := assignReqIdsFrom_get
      (dedupByText [] (rawRequirements (searchText title description acceptance_criteria))) 1
      (j.cast (by rw [analyze_security_requirements_eq]))
    rw [mkId] at this
    simpa [analyze_security_requirements_eq, Fin.coe_cast, Nat.add_comm 1,
      show ("SR" ++ "-" : String) = "SR-" from rfl] using this

/-- C7: when no pattern keyword occurs in the lower-cased search text
(including empty inputs), the analyzer returns no abuse cases, no STRIDE
threats, exactly the deduplicated baseline requirements with ids assigned,
and risk score 0. -/
theorem no_keyword_match_baseline_only (title description : String)
    (acceptance_criteria : Option String)
    (h : PATTERNS.all (fun p => p.keywords.all
        (fun kw => !(strContains (searchText title description acceptance_criteria) kw))) = true) :
    (analyze_with_templates title description acceptance_criteria).abuse_cases = []
    ∧ (analyze_with_templates title description acceptance_criteria).stride_threats = []
    ∧ (analyze_with_templates title description acceptance_criteria).security_requirements
        = assignReqIdsFrom 1 (dedupByText [] BASELINE_REQUIREMENTS)
    ∧ (analyze_with_templates title description acceptance_criteria).risk_score = 0 := by
  have hdet : detectedPatterns (searchText title description acceptance_criteria) = [] := by
    rw [detectedPatterns, List.filter_eq_nil_iff]
    intro p hp hdetp
    unfold patternDetected at hdetp
    rcases List.any_eq_true.mp hdetp with ⟨kw, hkw, hc⟩
    have := List.all_eq_true.mp (List.all_eq_true.mp h p hp) kw hkw
    simp [hc] at this
  have hab : rawAbuseCases (searchText title description acceptance_criteria) = [] := by
    simp [rawAbuseCases, hdet]
  have hreq : rawRequirements (searchText title description acceptance_criteria)
      = BASELINE_REQUIREMENTS := by
    simp [rawRequirements, hdet]
  refine ⟨?_, ?_, ?_, ?_⟩
  · rw [analyze_abuse_cases_eq, hab]; rfl
  · rw [analyze_stride_threats_eq, hab]; rfl
  · rw [analyze_security_requirements_eq, hreq]
  · rw [analyze_risk_score_eq, hab, hdet]; rfl

/-- Witness for C7: the empty input detects no pattern, and the conclusion of
`no_keyword_match_baseline_only` holds there. -/
theorem no_keyword_match_baseline_only_witness :
    (PATTERNS.all (fun p => p.keywords.all
        (fun kw => !(strContains (searchText "" "" none) kw))) = true)
    ∧ ((analyze_with_templates "" "" none).abuse_cases = []
      ∧ (analyze_with_templates "" "" none).stride_threats = []
      ∧ (analyze_with_templates "" "" none).security_requirements
          = assignReqIdsFrom 1 (dedupByText [] BASELINE_REQUIREMENTS)
      ∧ (analyze_with_templates "" "" none).risk_score = 0) :=
  ⟨by decide, no_keyword_match_baseline_only "" "" none (by decide)⟩

/-- C8: the claim that a call leaves the global `PATTERNS` and
`BASELINE_REQUIREMENTS` structures unchanged is refuted by the code: the
id-assignment loops write `"id"` keys into the shared template dicts.  On the
input `("login", "", None)` the post-call tables differ from the pristine
tables: the authentication pattern's abuse-case dicts now carry
`AC-001 … AC-005` and every baseline dict carries `SR-006 … SR-013`. -/
theorem analyze_mutates_globals :
    analyzeGlobals PATTERNS_M BASELINE_REQUIREMENTS_M "login" "" none
        ≠ (PATTERNS_M, BASELINE_REQUIREMENTS_M)
    ∧ (analyzeGlobals PATTERNS_M BASELINE_REQUIREMENTS_M "login" "" none).2.map
          (fun r => r.id)
        = [some "SR-006", some "SR-007", some "SR-008", some "SR-009", some "SR-010",
           some "SR-011", some "SR-012", some "SR-013"]
    ∧ ((analyzeGlobals PATTERNS_M BASELINE_REQUIREMENTS_M "login" "" none).1.map
          (fun p => p.abuse_cases.map (fun a => a.id))).head?
        = some [some "AC-001", some "AC-002", some "AC-003", some "AC-004", some "AC-005"] :=
  ⟨by decide, rfl, rfl⟩

theorem version_le_maxVersion (store : List StoredAnalysis) (sid : Nat)
    (a : StoredAnalysis) (ha : a ∈ store) (hsid : a.user_story_id = sid) :
    a.version ≤ maxVersion store sid := by
  apply le_foldr_max
  exact List.mem_map_of_mem StoredAnalysis.version
    (List.mem_filter.mpr ⟨ha, by simp [hsid]⟩)

/-- C10: creating an analysis stores version `max(existing versions) + 1`, so
versions stay at least 1 and `(user_story_id, version)` pairs stay pairwise
distinct; a failed run stores nothing and leaves every story's maximum
version unchanged. -/
theorem version_assignment_invariant (store : List StoredAnalysis) (sid : Nat)
    (h : VersionsOK store) :
    VersionsOK (analyzeSingleStory store sid)
    ∧ analyzeSingleStory store sid
        = store ++ [{ user_story_id := sid, version := maxVersion store sid + 1 }]
    ∧ (∀ sid2, maxVersion (failedRun store) sid2 = maxVersion store sid2) := by
  refine ⟨⟨?_, ?_⟩, rfl, fun _ => rfl⟩
  · intro a ha
    rcases List.mem_append.mp ha with ha | ha
    · exact h.1 a ha
    · rcases List.mem_singleton.mp ha with rfl
      exact Nat.succ_le_succ (Nat.zero_le _)
  · unfold analyzeSingleStory
    rw [List.map_append, List.nodup_append]
    refine ⟨h.2, List.nodup_singleton _, ?_⟩
    intro pr hpr hpr'
    rcases List.mem_map.mp hpr with ⟨a, ha, rfl⟩
    rcases List.mem_singleton.mp hpr' with heq
    have h1 : a.user_story_id = sid := congrArg Prod.fst heq
    have h2 : a.version = maxVersion store sid + 1 := congrArg Prod.snd heq
    have := version_le_maxVersion store sid a ha h1
    omega

/-- Witness for C10: the invariant holds of the empty store and is preserved
by an analysis run for story 7. -/
theorem version_assignment_invariant_witness :
    VersionsOK []
    ∧ (VersionsOK (analyzeSingleStory [] 7)
      ∧ analyzeSingleStory [] 7
          = [] ++ [{ user_story_id := 7, version := maxVersion [] 7 + 1 }]
      ∧ (∀ sid2, maxVersion (failedRun []) sid2 = maxVersion [] sid2)) :=
  ⟨by decide, version_assignment_invariant [] 7 (by decide)⟩

/-- The C3 claim's description of the built-in mapping step, written from the
spec's words: when the requirement's category resolves to no prefixes (absent
from the standard's category map, in particular for every unknown standard
name), no mapping; otherwise, per prefix, the first at most 2 catalog
controls whose id starts with the prefix at relevance 0.8 with the catalog
title, or exactly one synthetic mapping (`control_id` = the prefix,
`control_title` = `"<standard> control <prefix>"`) at relevance 0.6 when no
catalog control matches. -/
def builtinMappingsSpec (load : String → List Control) (req : Req)
    (std_name : String) : List Mapping :=
  ((lookupD (lookupD STANDARD_CATEGORY_MAP std_name []) req.category []).map (fun pfx =>
    match (load std_name).filter (fun c => strStartsWith c.id pfx) with
    | [] =>
      [{ requirement_id := req.id
         standard_name := std_name
         control_id := pfx
         control_title := std_name ++ " control " ++ pfx
         relevance_score := 0.6 }]
    | c :: rest =>
      ((c :: rest).take 2).map (fun c2 =>
        { requirement_id := req.id
          standard_name := std_name
          control_id := c2.id
          control_title := c2.title
          relevance_score := 0.8 }))).flatten

/-- C3: for every requirement, requested built-in standard and catalog, the
mapper's built-in step behaves exactly as the claim describes
(`builtinMappingsSpec`), and each prefix contributes between 1 and 2
mappings when it is matched at all. -/
theorem builtin_mapping_per_category (load : String → List Control) (req : Req)
    (std_name : String) :
    builtinMappingsFor load req std_name = builtinMappingsSpec load req std_name
    ∧ ∀ controls_data pfx,
        (mappingsForPfx req std_name controls_data pfx).length ≤ 2
        ∧ 1 ≤ (mappingsForPfx req std_name controls_data pfx).length := by
  constructor
  · unfold builtinMappingsFor builtinMappingsSpec
    refine congrArg List.flatten (List.map_congr_left fun pfx _ => ?_)
    rcases hf : (load std_name).filter (fun c => strStartsWith c.id pfx) with _ | ⟨c, rest⟩
    · simp [mappingsForPfx, hf]
    · simp [mappingsForPfx, hf]
  · intro controls_data pfx
    rcases hf : controls_data.filter (fun c => strStartsWith c.id pfx) with _ | ⟨c, rest⟩
    · simp [mappingsForPfx, hf]
    · constructor
      · simp [mappingsForPfx, hf, List.length_take]
      · simp [mappingsForPfx, hf, List.length_take]

def reqC4 : Req := { id := "SR-001", category := "Data Protection" }

def ctrlC4 : CustomControl := { category := "", control_id := "AC-2", title := "T2" }

def csC4 : CustomStandard := { name := some "ACME", controls := [ctrlC4] }

/-- C4 counterexample: for a custom control whose `category` is the empty
string, the claimed substring condition holds (the empty string is a substring
of the requirement's category), yet the mapper emits no mapping, because the
code additionally requires the control's category to be truthy (non-empty). -/
theorem custom_empty_category_not_emitted :
    (strContains (strLower reqC4.category) (strLower ctrlC4.category)
      || strContains (strLower ctrlC4.category) (strLower reqC4.category)) = true
    ∧ customMappingsFor reqC4 csC4 = [] :=
  ⟨rfl, rfl⟩

/-- The C4 claim as amended: a mapping is emitted for a custom control exactly
when its category is non-empty and, lower-cased, is a substring of the
requirement's category or vice versa; the mapping carries relevance 0.7 and
the custom standard's display name (default `"Custom"`). -/
def customMappingsSpec (req : Req) (cs : CustomStandard) : List Mapping :=
  (cs.controls.map (fun control =>
    if strLower control.category ≠ ""
        ∧ (strContains (strLower req.category) (strLower control.category) = true
          ∨ strContains (strLower control.category) (strLower req.category) = true) then
      [{ requirement_id := req.id
         standard_name := cs.name.getD "Custom"
         control_id := control.control_id
         control_title := control.title
         relevance_score := 0.7 }]
    else [])).flatten

/-- C4 (amended): the custom-standard step of the mapper emits exactly the
mappings described by `customMappingsSpec`. -/
theorem custom_mapping_iff_substring (req : Req) (cs : CustomStandard) :
    customMappingsFor req cs = customMappingsSpec req cs := by
  unfold customMappingsFor customMappingsSpec
  refine congrArg List.flatten (List.map_congr_left fun control _ => ?_)
  have hcond : (strLower control.category != ""
        && (strContains (strLower req.category) (strLower control.category)
          || strContains (strLower control.category) (strLower req.category))) = true
      ↔ (strLower control.category ≠ ""
        ∧ (strContains (strLower req.category) (strLower control.category) = true
          ∨ strContains (strLower control.category) (strLower req.category) = true)) := by
    simp [Bool.and_eq_true, Bool.or_eq_true, bne_iff_ne]
  exact if_congr hcond rfl rfl

/-- The catalog used by the C9 duplicate-row scenario: the OWASP ASVS data
file contains a single control `V10.1`. -/
def loadC9 : String → List Control := fun s =>
  if s == "OWASP_ASVS" then [{ id := "V10.1", title := "Sample control" }] else []

def reqC9 : Req := { id := "SR-001", category := "Secure Architecture" }

/-- C9: for a requirement of category `"Secure Architecture"` mapped against
`OWASP_ASVS`, the overlapping prefixes `V1` and `V10` both match control
`V10.1`, so the same `(requirement_id, standard_name, control_id)` triple is
emitted twice, in the deterministic standards-then-prefixes-then-controls
order (`V1` match, `V10` match, `V14` synthetic). -/
theorem duplicate_triple_emitted :
    map_requirements_to_standards loadC9 [reqC9] (some ["OWASP_ASVS"]) none
      = [{ requirement_id := "SR-001", standard_name := "OWASP_ASVS", control_id := "V10.1",
           control_title := "Sample control", relevance_score := 0.8 },
         { requirement_id := "SR-001", standard_name := "OWASP_ASVS", control_id := "V10.1",
           control_title := "Sample control", relevance_score := 0.8 },
         { requirement_id := "SR-001", standard_name := "OWASP_ASVS", control_id := "V14",
           control_title := "OWASP_ASVS control V14", relevance_score := 0.6 }]
    ∧ (map_requirements_to_standards loadC9 [reqC9] (some ["OWASP_ASVS"]) none).countP
        (fun m => m.requirement_id == "SR-001" && m.standard_name == "OWASP_ASVS"
          && m.control_id == "V10.1") = 2 :=
  ⟨rfl, rfl⟩
